import Mathlib

/-!
Verification of the adrenotools JNI bridge
(`src/app/src/main/cpp/adrenotools_bridge.cpp`, function
`Java_app_marlboroadvance_mpvex_system_AdrenoTools_nativeHookDriver`).

The function is embedded shallowly as a pure Lean function over explicit
oracles for the external capabilities it uses:
  * `access(path, F_OK)` is an oracle `accessOk : String → Bool`;
  * the external namespace-bypass primitive `adrenotools_open_libvulkan`
    is an oracle from its argument record to an outcome (a nullable
    handle together with the value, if any, that the primitive writes
    into the process-global linker error slot during the call);
  * the process-global `dlerror` slot is threaded explicitly as an
    `Option String` (the C function reads the slot and clears it);
  * the four `GetStringUTFChars` results are nullable C strings,
    modelled as `Option String` (`none` = the conversion returned null).

Every observable action of the function (JNI string acquisition and
release, each `__android_log_print` call with its structured payload,
the `dlerror()` calls, the primitive invocation) is recorded as an event
in a trace, so that temporal claims (ordering, exactly-once release,
diagnostic contents) are statements about the trace.  A run that reaches
undefined behaviour (constructing `std::string` from a null `char *`)
yields `none`: the fault escapes and no boolean is returned.
-/

/-- Log priority of an `__android_log_print` call (`LOGI` / `LOGE`). -/
inductive Level where
  | info
  | error
deriving DecidableEq, Repr

/-- One structured log message, one constructor per log call site in the C
function, carrying exactly the data arguments that call site formats. -/
inductive LogMsg where
  /-- Call site `LOGI("Starting AdrenoTools injection...")`. -/
  | startingInjection
  /-- Call site `LOGE("CRITICAL: The bait file is MISSING from ...: %s", bait_path)`. -/
  | baitMissing (path : String)
  /-- Call site `LOGI("SUCCESS: Bait file found at %s", bait_path)`. -/
  | baitFound (path : String)
  /-- Call site `LOGE("CRITICAL: adrenotools_open_libvulkan failed!")`. -/
  | openFailed
  /-- Call site `LOGE("Real dlerror: %s", text)` where `text` is the retrieved error
  or the fixed fallback message. -/
  | realDlerror (text : String)
  /-- Call site `LOGI("SUCCESS: ... Handle: %p", handle)`. -/
  | successLoaded (handle : Nat)
deriving DecidableEq, Repr

/-- Value of `RTLD_NOW` (bionic / glibc LP64 value). -/
def RTLD_NOW : Nat := 2

/-- Value of `RTLD_GLOBAL` (bionic / glibc LP64 value). -/
def RTLD_GLOBAL : Nat := 0x100

/-- Value of `ADRENOTOOLS_DRIVER_CUSTOM`, the driver-type constant from the external
adrenotools `driver.h`.  The embedding uses it only as a named constant;
its numeric value plays no role in any statement. -/
def ADRENOTOOLS_DRIVER_CUSTOM : Nat := 4

/-- The argument record of one call to the external primitive
`adrenotools_open_libvulkan`.  Nullable C-string arguments are
`Option String`; the two trailing out-parameters (file-redirect
directory, feature flags) are nullable pointers, `none` = `nullptr`. -/
structure OpenArgs where
  flags : Nat
  driverType : Nat
  tmpLibDir : Option String
  hookLibDir : Option String
  customDriverDir : Option String
  fileName : Option String
  fileRedirectDir : Option String
  featureFlags : Option Nat
deriving DecidableEq, Repr

/-- Outcome of one call to the external primitive: the returned handle
(`none` = null) and the value, if any, the primitive writes into the
process-global linker error slot during the call (`none` = the primitive
never touched the slot, e.g. it failed before reaching the linker). -/
structure PrimBehavior where
  handle : Option Nat
  errWrite : Option String
deriving DecidableEq, Repr

/-- The external capabilities the bridge calls into: the filesystem
existence check and the namespace-bypass primitive.  Both are black
boxes; the primitive is deterministic per argument record, matching the
stub-primitive testing model of the specification. -/
structure SysEnv where
  accessOk : String → Bool
  prim : OpenArgs → PrimBehavior

/-- The four `GetStringUTFChars` results, in parameter order
(`tmp_lib_dir`, `hook_lib_dir`, `custom_driver_dir`, `driver_name`).
`none` models the JNI conversion returning null. -/
structure BridgeInput where
  tmp : Option String
  hook : Option String
  driver : Option String
  name : Option String
deriving DecidableEq, Repr

/-- One observable action of the bridge, in program order. -/
inductive Event where
  | getTmp
  | getHook
  | getDriver
  | getName
  | logged (lvl : Level) (msg : LogMsg)
  | accessCheck (path : String)
  | clearDlerror
  | openCall (args : OpenArgs)
  | readDlerror
  | releaseTmp
  | releaseHook
  | releaseDriver
  | releaseName
deriving DecidableEq, Repr

/-- What a completed invocation hands back: the `jboolean` return value
and the trace of observable actions. -/
structure BridgeResult where
  ret : Bool
  trace : List Event
deriving DecidableEq, Repr

/-- Semantics of one `dlerror()` call on the process-global slot: it
returns the current content and clears the slot. -/
def dlerrorRead (slot : Option String) : Option String × Option String :=
  (slot, none)

/-- Effect of the primitive on the linker error slot: if it wrote an
error the slot now holds it, otherwise the slot is unchanged. -/
def primSlotEffect (w : Option String) (slot : Option String) : Option String :=
  match w with
  | some e => some e
  | none => slot

/-- The fixed bait file name appended by the C code. -/
def baitName : String := "libvulkan_freedreno.so"

/-- Embedding of `std::string(hook_dir) + "/libvulkan_freedreno.so"`. -/
def bait_path (hook : String) : String := hook ++ "/libvulkan_freedreno.so"

/-- The fixed fallback text logged when `dlerror()` yields null after a
failed primitive call. -/
def fallbackMsg : String := "No dlerror generated (Likely LinkerNSBypass failed)"

/-- The argument record the C code builds for `adrenotools_open_libvulkan`:
`RTLD_NOW | RTLD_GLOBAL`, `ADRENOTOOLS_DRIVER_CUSTOM`, the four converted
strings, and `nullptr` for the two trailing out-parameters. -/
def mkArgs (tmp hook driver name : Option String) : OpenArgs :=
  { flags := RTLD_NOW ||| RTLD_GLOBAL
    driverType := ADRENOTOOLS_DRIVER_CUSTOM
    tmpLibDir := tmp
    hookLibDir := hook
    customDriverDir := driver
    fileName := name
    fileRedirectDir := none
    featureFlags := none }

/-- The two bait-check events: the `access` call on the bait path and the
log line of whichever branch was taken. -/
def baitEvents (present : Bool) (bp : String) : List Event :=
  if present then
    [Event.accessCheck bp, Event.logged Level.info (LogMsg.baitFound bp)]
  else
    [Event.accessCheck bp, Event.logged Level.error (LogMsg.baitMissing bp)]

/-- The events after the primitive returns: on a null handle the code
reads `dlerror()` and logs the failure pair (with the fallback text when
the slot is empty); on a non-null handle it logs success. -/
def outcomeEvents (handle : Option Nat) (slot : Option String) : List Event :=
  match handle with
  | none =>
      [Event.readDlerror,
       Event.logged Level.error LogMsg.openFailed,
       Event.logged Level.error (LogMsg.realDlerror ((dlerrorRead slot).1.getD fallbackMsg))]
  | some h => [Event.logged Level.info (LogMsg.successLoaded h)]

/-- Shallow embedding of
`Java_app_marlboroadvance_mpvex_system_AdrenoTools_nativeHookDriver`.
`stale` is the content of the process-global linker error slot when the
call begins.  Returns `none` when the run reaches undefined behaviour:
the code passes `hook_dir` to the `std::string` constructor without a
null check, so a null `hook_lib_dir` conversion dereferences null before
any release or return is reached. -/
def nativeHookDriver (env : SysEnv) (inp : BridgeInput) (stale : Option String) :
    Option BridgeResult :=
  match inp.hook with
  | none => none
  | some hook =>
      let bp := bait_path hook
      let args := mkArgs inp.tmp (some hook) inp.driver inp.name
      let slotCleared := (dlerrorRead stale).2
      let pb := env.prim args
      let slotAfterPrim := primSlotEffect pb.errWrite slotCleared
      some
        { ret := pb.handle.isSome
          trace :=
            [Event.getTmp, Event.getHook, Event.getDriver, Event.getName,
             Event.logged Level.info LogMsg.startingInjection]
            ++ baitEvents (env.accessOk bp) bp
            ++ [Event.clearDlerror, Event.openCall args]
            ++ outcomeEvents pb.handle slotAfterPrim
            ++ [Event.releaseTmp, Event.releaseHook, Event.releaseDriver,
                Event.releaseName] }

/-- Recognizer for the `dlerror()`-clearing event. -/
def isClearEv : Event → Bool
  | Event.clearDlerror => true
  | _ => false

/-- Recognizer for the primitive-invocation event. -/
def isOpenEv : Event → Bool
  | Event.openCall _ => true
  | _ => false

/-- Recognizer for the MissingArtifact diagnostic. -/
def isBaitMissingEv : Event → Bool
  | Event.logged _ (LogMsg.baitMissing _) => true
  | _ => false

/-- Recognizers for the four acquisition events. -/
def isGetTmpEv : Event → Bool
  | Event.getTmp => true
  | _ => false

def isGetHookEv : Event → Bool
  | Event.getHook => true
  | _ => false

def isGetDriverEv : Event → Bool
  | Event.getDriver => true
  | _ => false

def isGetNameEv : Event → Bool
  | Event.getName => true
  | _ => false

/-- Recognizers for the four release events. -/
def isRelTmpEv : Event → Bool
  | Event.releaseTmp => true
  | _ => false

def isRelHookEv : Event → Bool
  | Event.releaseHook => true
  | _ => false

def isRelDriverEv : Event → Bool
  | Event.releaseDriver => true
  | _ => false

def isRelNameEv : Event → Bool
  | Event.releaseName => true
  | _ => false

/-- Number of events in a trace satisfying `p`. -/
def countEv (p : Event → Bool) : List Event → Nat
  | [] => 0
  | e :: t => (if p e then 1 else 0) + countEv p t

/-- Index of the first event satisfying `p`, if any. -/
def idxOfP (p : Event → Bool) : List Event → Option Nat
  | [] => none
  | e :: t => if p e then some 0 else (idxOfP p t).map (· + 1)

/-- The log lines of a trace, in order, with their priorities. -/
def logsOf : List Event → List (Level × LogMsg)
  | [] => []
  | Event.logged lvl m :: t => (lvl, m) :: logsOf t
  | _ :: t => logsOf t

/-- Predicate `leadsList s t` decides whether `s` is an initial segment of `t`. -/
def leadsList : List Char → List Char → Bool
  | [], _ => true
  | _ :: _, [] => false
  | a :: s, b :: t => a == b && leadsList s t

/-- Predicate `withinList s t` decides whether `s` occurs contiguously inside `t`. -/
def withinList (s : List Char) : List Char → Bool
  | [] => s.isEmpty
  | b :: t => leadsList s (b :: t) || withinList s t

/-- Predicate `strWithin needle hay` decides whether `needle` occurs as a substring
of `hay`. -/
def strWithin (needle hay : String) : Bool :=
  withinList needle.toList hay.toList

/-- The data strings a log message carries (its `%s` arguments). -/
def msgStrings : LogMsg → List String
  | LogMsg.baitMissing p => [p]
  | LogMsg.baitFound p => [p]
  | LogMsg.realDlerror t => [t]
  | _ => []

/-- Whether a log line mentions `s`, even as a mere substring of one of
its data arguments. -/
def msgMentions (s : String) (m : LogMsg) : Bool :=
  (msgStrings m).any (fun a => strWithin s a)

/-- Whether any log line of the trace mentions `s` (as a substring of a
data argument). -/
def traceMentions (s : String) (t : List Event) : Bool :=
  (logsOf t).any (fun lm => msgMentions s lm.2)

/-- A stub environment: bait present, primitive succeeds with handle 1
and no error write. -/
def stubEnvOk : SysEnv :=
  { accessOk := fun _ => true
    prim := fun _ => { handle := some 1, errWrite := none } }

/-- A stub environment: bait absent, primitive fails writing a linker
error. -/
def stubEnvFailErr : SysEnv :=
  { accessOk := fun _ => false
    prim := fun _ => { handle := none, errWrite := some "dlopen failed: library not found" } }

/-- A stub environment: bait absent, primitive fails without touching the
linker error slot. -/
def stubEnvFailSilent : SysEnv :=
  { accessOk := fun _ => false
    prim := fun _ => { handle := none, errWrite := none } }

/-- A concrete all-converted input (specification scenario A paths). -/
def inpA : BridgeInput :=
  { tmp := some "/data/tmp"
    hook := some "/data/app/lib"
    driver := some "/data/drivers/turnip"
    name := some "libturnip.so" }

/-- Returns `true` when the first event satisfying `p` strictly precedes the
first event satisfying `q` (both existing). -/
def beforeIn (p q : Event → Bool) (t : List Event) : Bool :=
  match idxOfP p t, idxOfP q t with
  | some i, some j => decide (i < j)
  | _, _ => false

/-- The texts of all `Real dlerror: %s` log lines of a trace. -/
def dlerrorTexts (t : List Event) : List String :=
  (logsOf t).filterMap fun lm =>
    match lm.2 with
    | LogMsg.realDlerror s => some s
    | _ => none

/-- The argument record actually passed to the primitive, given the
converted inputs. -/
def runArgs (inp : BridgeInput) (hook : String) : OpenArgs :=
  mkArgs inp.tmp (some hook) inp.driver inp.name

/-- The result a completed run produces, as a function of the oracles and
the converted inputs. -/
def runResult (env : SysEnv) (inp : BridgeInput) (hook : String) : BridgeResult :=
  { ret := (env.prim (runArgs inp hook)).handle.isSome
    trace :=
      [Event.getTmp, Event.getHook, Event.getDriver, Event.getName,
       Event.logged Level.info LogMsg.startingInjection]
      ++ baitEvents (env.accessOk (bait_path hook)) (bait_path hook)
      ++ [Event.clearDlerror, Event.openCall (runArgs inp hook)]
      ++ outcomeEvents (env.prim (runArgs inp hook)).handle
          (primSlotEffect (env.prim (runArgs inp hook)).errWrite none)
      ++ [Event.releaseTmp, Event.releaseHook, Event.releaseDriver,
          Event.releaseName] }

/-- When the `hook_lib_dir` conversion is non-null the run completes and
its result is `runResult`; in particular the stale content of the linker
error slot is irrelevant, because the slot the primitive acts on is the
cleared one. -/
theorem run_some (env : SysEnv) (inp : BridgeInput) (stale : Option String)
    (hook : String) (hh : inp.hook = some hook) :
    nativeHookDriver env inp stale = some (runResult env inp hook) := by
  rcases inp with ⟨t, hk, d, n⟩
  simp only [BridgeInput.hook] at hh
  subst hh
  rfl

/-- C1: for every completed invocation, the boolean returned to the
caller is true exactly when the namespace-bypass primitive returned a
non-null handle; since `env.accessOk` (the bait check) and `stale` (the
pre-existing linker error slot) are arbitrary here, neither influences
the returned boolean. -/
theorem ret_iff_nonnull_handle (env : SysEnv) (inp : BridgeInput)
    (stale : Option String) (hook : String) (r : BridgeResult)
    (hh : inp.hook = some hook)
    (hr : nativeHookDriver env inp stale = some r) :
    r.ret = (env.prim (runArgs inp hook)).handle.isSome := by
  rw [run_some env inp stale hook hh] at hr
  injection hr with h
  subst h
  rfl

/-- Witness for `ret_iff_nonnull_handle` at scenario-A input, a stale
error in the slot, bait present, primitive succeeding. -/
theorem ret_iff_nonnull_handle_w :
    ((nativeHookDriver stubEnvOk inpA (some "stale text")).getD ⟨false, []⟩).ret
      = (stubEnvOk.prim (runArgs inpA "/data/app/lib")).handle.isSome :=
  ret_iff_nonnull_handle stubEnvOk inpA (some "stale text") "/data/app/lib"
    ((nativeHookDriver stubEnvOk inpA (some "stale text")).getD ⟨false, []⟩)
    rfl rfl

/-- The slot effect of the primitive on a cleared slot is exactly what
the primitive wrote during this call. -/
theorem primSlotEffect_none (w : Option String) : primSlotEffect w none = w := by
  cases w <;> rfl

/-- C2: the run is wholly independent of any stale content of the
process-global linker error slot (clearing `dlerror` makes the stale
value dead), the clearing event strictly precedes the primitive call in
the trace, and the surfaced error text, when the primitive fails, is
exactly what this attempt wrote into the slot (or the fallback), never
the stale value; on success no error text is surfaced at all. -/
theorem dlerror_cleared_before_open (env : SysEnv) (inp : BridgeInput)
    (stale : Option String) (hook : String) (r : BridgeResult)
    (hh : inp.hook = some hook)
    (hr : nativeHookDriver env inp stale = some r) :
    nativeHookDriver env inp stale = nativeHookDriver env inp none ∧
    beforeIn isClearEv isOpenEv r.trace = true ∧
    dlerrorTexts r.trace =
      (match (env.prim (runArgs inp hook)).handle with
       | none => [((env.prim (runArgs inp hook)).errWrite).getD fallbackMsg]
       | some _ => []) := by
  rw [run_some env inp stale hook hh] at hr
  injection hr with h
  subst h
  refine ⟨by rw [run_some env inp stale hook hh, run_some env inp none hook hh],
    ?_, ?_⟩
  · cases hacc : env.accessOk (bait_path hook) <;>
      cases hph : (env.prim (runArgs inp hook)).handle <;>
        simp only [runResult, hacc, hph] <;> rfl
  · cases hacc : env.accessOk (bait_path hook) <;>
      cases hph : (env.prim (runArgs inp hook)).handle <;>
        simp only [runResult, hacc, hph, primSlotEffect_none] <;> rfl

/-- Witness for `dlerror_cleared_before_open`: a stale error sits in the
slot, the bait is absent, and the primitive fails without touching the
slot; the run equals the stale-free run, and the sole surfaced text is
the fallback, not the stale error. -/
theorem dlerror_cleared_before_open_w :
    nativeHookDriver stubEnvFailSilent inpA (some "stale unrelated error")
      = nativeHookDriver stubEnvFailSilent inpA none ∧
    beforeIn isClearEv isOpenEv
      ((nativeHookDriver stubEnvFailSilent inpA
        (some "stale unrelated error")).getD ⟨false, []⟩).trace = true ∧
    dlerrorTexts
      ((nativeHookDriver stubEnvFailSilent inpA
        (some "stale unrelated error")).getD ⟨false, []⟩).trace =
      (match (stubEnvFailSilent.prim (runArgs inpA "/data/app/lib")).handle with
       | none =>
          [((stubEnvFailSilent.prim (runArgs inpA "/data/app/lib")).errWrite).getD
              fallbackMsg]
       | some _ => []) :=
  dlerror_cleared_before_open stubEnvFailSilent inpA
    (some "stale unrelated error") "/data/app/lib"
    ((nativeHookDriver stubEnvFailSilent inpA
      (some "stale unrelated error")).getD ⟨false, []⟩)
    rfl rfl

/-- C3: when the bait artifact is absent or inaccessible (`access` fails
on the bait path), the MissingArtifact diagnostic is emitted exactly
once, the primitive is nevertheless invoked exactly once, and the
diagnostic precedes the invocation: the bait check never short-circuits
the redirection attempt. -/
theorem baitMissing_no_short_circuit (env : SysEnv) (inp : BridgeInput)
    (stale : Option String) (hook : String) (r : BridgeResult)
    (hh : inp.hook = some hook)
    (hmiss : env.accessOk (bait_path hook) = false)
    (hr : nativeHookDriver env inp stale = some r) :
    countEv isBaitMissingEv r.trace = 1 ∧
    countEv isOpenEv r.trace = 1 ∧
    beforeIn isBaitMissingEv isOpenEv r.trace = true := by
  rw [run_some env inp stale hook hh] at hr
  injection hr with h
  subst h
  cases hph : (env.prim (runArgs inp hook)).handle <;>
    simp only [runResult, hmiss, hph] <;>
    exact ⟨rfl, rfl, rfl⟩

/-- Witness for `baitMissing_no_short_circuit`: bait absent, primitive
failing with a linker error. -/
theorem baitMissing_no_short_circuit_w :
    countEv isBaitMissingEv
      ((nativeHookDriver stubEnvFailErr inpA none).getD ⟨false, []⟩).trace = 1 ∧
    countEv isOpenEv
      ((nativeHookDriver stubEnvFailErr inpA none).getD ⟨false, []⟩).trace = 1 ∧
    beforeIn isBaitMissingEv isOpenEv
      ((nativeHookDriver stubEnvFailErr inpA none).getD ⟨false, []⟩).trace
      = true :=
  baitMissing_no_short_circuit stubEnvFailErr inpA none "/data/app/lib"
    ((nativeHookDriver stubEnvFailErr inpA none).getD ⟨false, []⟩)
    rfl rfl rfl

/-- C5: the path checked for the bait artifact is exactly
`hook_lib_dir ++ "/" ++ "libvulkan_freedreno.so"`, and when the artifact
is missing that exact path is carried by the MissingArtifact log line. -/
theorem bait_path_exact (env : SysEnv) (inp : BridgeInput)
    (stale : Option String) (hook : String) (r : BridgeResult)
    (hh : inp.hook = some hook)
    (hmiss : env.accessOk (bait_path hook) = false)
    (hr : nativeHookDriver env inp stale = some r) :
    bait_path hook = hook ++ "/" ++ baitName ∧
    Event.accessCheck (hook ++ "/" ++ baitName) ∈ r.trace ∧
    (Level.error, LogMsg.baitMissing (hook ++ "/" ++ baitName))
      ∈ logsOf r.trace := by
  rw [run_some env inp stale hook hh] at hr
  injection hr with h
  subst h
  have hbp : bait_path hook = hook ++ "/" ++ baitName := by
    rw [String.append_assoc]; rfl
  refine ⟨hbp, ?_, ?_⟩ <;> rw [← hbp] <;>
    cases hph : (env.prim (runArgs inp hook)).handle <;>
      simp [runResult, hmiss, hph, baitEvents, outcomeEvents, logsOf]

/-- Witness for `bait_path_exact`: bait absent at scenario-A paths. -/
theorem bait_path_exact_w :
    bait_path "/data/app/lib" = "/data/app/lib" ++ "/" ++ baitName ∧
    Event.accessCheck ("/data/app/lib" ++ "/" ++ baitName)
      ∈ ((nativeHookDriver stubEnvFailSilent inpA none).getD ⟨false, []⟩).trace ∧
    (Level.error, LogMsg.baitMissing ("/data/app/lib" ++ "/" ++ baitName))
      ∈ logsOf
          ((nativeHookDriver stubEnvFailSilent inpA none).getD
            ⟨false, []⟩).trace :=
  bait_path_exact stubEnvFailSilent inpA none "/data/app/lib"
    ((nativeHookDriver stubEnvFailSilent inpA none).getD ⟨false, []⟩)
    rfl rfl rfl

/-- Every primitive invocation recorded in the trace of a completed run uses
exactly the argument record the code builds. -/
theorem openCall_args_eq (env : SysEnv) (inp : BridgeInput)
    (stale : Option String) (hook : String) (r : BridgeResult)
    (args : OpenArgs)
    (hh : inp.hook = some hook)
    (hr : nativeHookDriver env inp stale = some r)
    (hmem : Event.openCall args ∈ r.trace) :
    args = runArgs inp hook := by
  rw [run_some env inp stale hook hh] at hr
  injection hr with h
  subst h
  cases hacc : env.accessOk (bait_path hook) <;>
    cases hph : (env.prim (runArgs inp hook)).handle <;>
      simpa [runResult, hacc, hph, baitEvents, outcomeEvents] using hmem

/-- C6: the resolution flags passed to the namespace-bypass primitive
are `RTLD_NOW | RTLD_GLOBAL`: both eager binding and global visibility
are requested on every invocation. -/
theorem open_flags_now_global (env : SysEnv) (inp : BridgeInput)
    (stale : Option String) (hook : String) (r : BridgeResult)
    (args : OpenArgs)
    (hh : inp.hook = some hook)
    (hr : nativeHookDriver env inp stale = some r)
    (hmem : Event.openCall args ∈ r.trace) :
    args.flags = RTLD_NOW ||| RTLD_GLOBAL ∧
    args.flags &&& RTLD_NOW = RTLD_NOW ∧
    args.flags &&& RTLD_GLOBAL = RTLD_GLOBAL := by
  have hargs := openCall_args_eq env inp stale hook r args hh hr hmem
  subst hargs
  refine ⟨rfl, ?_, ?_⟩
  · show (RTLD_NOW ||| RTLD_GLOBAL) &&& RTLD_NOW = RTLD_NOW
    decide
  · show (RTLD_NOW ||| RTLD_GLOBAL) &&& RTLD_GLOBAL = RTLD_GLOBAL
    decide

/-- Witness for `open_flags_now_global` at scenario-A input. -/
theorem open_flags_now_global_w :
    (runArgs inpA "/data/app/lib").flags = RTLD_NOW ||| RTLD_GLOBAL ∧
    (runArgs inpA "/data/app/lib").flags &&& RTLD_NOW = RTLD_NOW ∧
    (runArgs inpA "/data/app/lib").flags &&& RTLD_GLOBAL = RTLD_GLOBAL :=
  open_flags_now_global stubEnvOk inpA none "/data/app/lib"
    ((nativeHookDriver stubEnvOk inpA none).getD ⟨false, []⟩)
    (runArgs inpA "/data/app/lib") rfl rfl (by decide)

/-- C7: when the primitive returns a null handle and this attempt wrote
nothing into the linker error slot, the failure line carries the fixed,
non-empty fallback text naming the likely pre-linker blockage, not a
bare null or an empty message. -/
theorem fallback_on_silent_failure (env : SysEnv) (inp : BridgeInput)
    (stale : Option String) (hook : String) (r : BridgeResult)
    (hh : inp.hook = some hook)
    (hnull : (env.prim (runArgs inp hook)).handle = none)
    (hsilent : (env.prim (runArgs inp hook)).errWrite = none)
    (hr : nativeHookDriver env inp stale = some r) :
    (Level.error, LogMsg.realDlerror fallbackMsg) ∈ logsOf r.trace ∧
    dlerrorTexts r.trace = [fallbackMsg] ∧
    0 < fallbackMsg.length := by
  rw [run_some env inp stale hook hh] at hr
  injection hr with h
  subst h
  refine ⟨?_, ?_, by decide⟩ <;>
    cases hacc : env.accessOk (bait_path hook) <;>
      simp [runResult, hacc, hnull, hsilent, baitEvents, outcomeEvents,
        logsOf, dlerrorTexts, primSlotEffect, dlerrorRead]

/-- Witness for `fallback_on_silent_failure`: bait absent, primitive
fails without touching the slot. -/
theorem fallback_on_silent_failure_w :
    (Level.error, LogMsg.realDlerror fallbackMsg)
      ∈ logsOf
          ((nativeHookDriver stubEnvFailSilent inpA none).getD
            ⟨false, []⟩).trace ∧
    dlerrorTexts
      ((nativeHookDriver stubEnvFailSilent inpA none).getD ⟨false, []⟩).trace
      = [fallbackMsg] ∧
    0 < fallbackMsg.length :=
  fallback_on_silent_failure stubEnvFailSilent inpA none "/data/app/lib"
    ((nativeHookDriver stubEnvFailSilent inpA none).getD ⟨false, []⟩)
    rfl rfl rfl rfl

set_option maxHeartbeats 1600000 in
/-- C9: on every completed run each of the four JNI strings is acquired
exactly once and released exactly once, each acquisition precedes the
matching release, and every release happens only after the primitive
call — the strings stay valid for the call and are handed back before
returning. -/
theorem strings_released_exactly_once (env : SysEnv) (inp : BridgeInput)
    (stale : Option String) (hook : String) (r : BridgeResult)
    (hh : inp.hook = some hook)
    (hr : nativeHookDriver env inp stale = some r) :
    countEv isGetTmpEv r.trace = 1 ∧ countEv isGetHookEv r.trace = 1 ∧
    countEv isGetDriverEv r.trace = 1 ∧ countEv isGetNameEv r.trace = 1 ∧
    countEv isRelTmpEv r.trace = 1 ∧ countEv isRelHookEv r.trace = 1 ∧
    countEv isRelDriverEv r.trace = 1 ∧ countEv isRelNameEv r.trace = 1 ∧
    beforeIn isGetTmpEv isRelTmpEv r.trace = true ∧
    beforeIn isGetHookEv isRelHookEv r.trace = true ∧
    beforeIn isGetDriverEv isRelDriverEv r.trace = true ∧
    beforeIn isGetNameEv isRelNameEv r.trace = true ∧
    beforeIn isOpenEv isRelTmpEv r.trace = true ∧
    beforeIn isOpenEv isRelHookEv r.trace = true ∧
    beforeIn isOpenEv isRelDriverEv r.trace = true ∧
    beforeIn isOpenEv isRelNameEv r.trace = true := by
  rw [run_some env inp stale hook hh] at hr
  injection hr with h
  subst h
  cases hacc : env.accessOk (bait_path hook) <;>
    cases hph : (env.prim (runArgs inp hook)).handle <;>
      simp only [runResult, hacc, hph] <;>
      exact ⟨rfl, rfl, rfl, rfl, rfl, rfl, rfl, rfl, rfl, rfl, rfl, rfl,
        rfl, rfl, rfl, rfl⟩

set_option maxHeartbeats 1600000 in
/-- Witness for `strings_released_exactly_once` at scenario-A input with
the bait present and the primitive succeeding. -/
theorem strings_released_exactly_once_w :
    countEv isGetTmpEv
      ((nativeHookDriver stubEnvOk inpA none).getD ⟨false, []⟩).trace = 1 ∧
    countEv isGetHookEv
      ((nativeHookDriver stubEnvOk inpA none).getD ⟨false, []⟩).trace = 1 ∧
    countEv isGetDriverEv
      ((nativeHookDriver stubEnvOk inpA none).getD ⟨false, []⟩).trace = 1 ∧
    countEv isGetNameEv
      ((nativeHookDriver stubEnvOk inpA none).getD ⟨false, []⟩).trace = 1 ∧
    countEv isRelTmpEv
      ((nativeHookDriver stubEnvOk inpA none).getD ⟨false, []⟩).trace = 1 ∧
    countEv isRelHookEv
      ((nativeHookDriver stubEnvOk inpA none).getD ⟨false, []⟩).trace = 1 ∧
    countEv isRelDriverEv
      ((nativeHookDriver stubEnvOk inpA none).getD ⟨false, []⟩).trace = 1 ∧
    countEv isRelNameEv
      ((nativeHookDriver stubEnvOk inpA none).getD ⟨false, []⟩).trace = 1 ∧
    beforeIn isGetTmpEv isRelTmpEv
      ((nativeHookDriver stubEnvOk inpA none).getD ⟨false, []⟩).trace = true ∧
    beforeIn isGetHookEv isRelHookEv
      ((nativeHookDriver stubEnvOk inpA none).getD ⟨false, []⟩).trace = true ∧
    beforeIn isGetDriverEv isRelDriverEv
      ((nativeHookDriver stubEnvOk inpA none).getD ⟨false, []⟩).trace = true ∧
    beforeIn isGetNameEv isRelNameEv
      ((nativeHookDriver stubEnvOk inpA none).getD ⟨false, []⟩).trace = true ∧
    beforeIn isOpenEv isRelTmpEv
      ((nativeHookDriver stubEnvOk inpA none).getD ⟨false, []⟩).trace = true ∧
    beforeIn isOpenEv isRelHookEv
      ((nativeHookDriver stubEnvOk inpA none).getD ⟨false, []⟩).trace = true ∧
    beforeIn isOpenEv isRelDriverEv
      ((nativeHookDriver stubEnvOk inpA none).getD ⟨false, []⟩).trace = true ∧
    beforeIn isOpenEv isRelNameEv
      ((nativeHookDriver stubEnvOk inpA none).getD ⟨false, []⟩).trace = true :=
  strings_released_exactly_once stubEnvOk inpA none "/data/app/lib"
    ((nativeHookDriver stubEnvOk inpA none).getD ⟨false, []⟩)
    rfl rfl

/-- C10: the primitive is always invoked with the hardcoded
`ADRENOTOOLS_DRIVER_CUSTOM` driver type and null for both trailing
out-parameters, whatever the caller-supplied strings are. -/
theorem open_driver_type_custom (env : SysEnv) (inp : BridgeInput)
    (stale : Option String) (hook : String) (r : BridgeResult)
    (args : OpenArgs)
    (hh : inp.hook = some hook)
    (hr : nativeHookDriver env inp stale = some r)
    (hmem : Event.openCall args ∈ r.trace) :
    args.driverType = ADRENOTOOLS_DRIVER_CUSTOM ∧
    args.fileRedirectDir = none ∧
    args.featureFlags = none := by
  have hargs := openCall_args_eq env inp stale hook r args hh hr hmem
  subst hargs
  exact ⟨rfl, rfl, rfl⟩

/-- Witness for `open_driver_type_custom` at scenario-A input with the
bait absent and the primitive failing. -/
theorem open_driver_type_custom_w :
    (runArgs inpA "/data/app/lib").driverType = ADRENOTOOLS_DRIVER_CUSTOM ∧
    (runArgs inpA "/data/app/lib").fileRedirectDir = none ∧
    (runArgs inpA "/data/app/lib").featureFlags = none :=
  open_driver_type_custom stubEnvFailErr inpA none "/data/app/lib"
    ((nativeHookDriver stubEnvFailErr inpA none).getD ⟨false, []⟩)
    (runArgs inpA "/data/app/lib") rfl rfl (by decide)

/-- C8 counterexample: at the concrete scenario-A invocation (bait
present, primitive succeeding) the emitted record mentions none of
`temp_lib_dir`, `custom_driver_dir`, `driver_file_name` — not even as a
substring of any logged datum — so the record does not include all four
input parameters as the claim states. -/
theorem diag_omits_params_cex :
    (nativeHookDriver stubEnvOk inpA none).isSome = true ∧
    traceMentions "/data/tmp"
      ((nativeHookDriver stubEnvOk inpA none).getD ⟨false, []⟩).trace
      = false ∧
    traceMentions "/data/drivers/turnip"
      ((nativeHookDriver stubEnvOk inpA none).getD ⟨false, []⟩).trace
      = false ∧
    traceMentions "libturnip.so"
      ((nativeHookDriver stubEnvOk inpA none).getD ⟨false, []⟩).trace
      = false :=
  ⟨rfl, rfl, rfl, rfl⟩

/-- C8 (amended): the diagnostic record of a completed invocation is
exactly the start line, one bait-check line carrying the validated bait
path, and either the success line with the handle or the failure pair
carrying the linker error text retrieved during this attempt (or the
fallback category); the four input parameters are not separately
included. -/
theorem diagnostic_record_contents (env : SysEnv) (inp : BridgeInput)
    (stale : Option String) (hook : String) (r : BridgeResult)
    (hh : inp.hook = some hook)
    (hr : nativeHookDriver env inp stale = some r) :
    logsOf r.trace =
      (Level.info, LogMsg.startingInjection) ::
      (if env.accessOk (bait_path hook) then
        (Level.info, LogMsg.baitFound (bait_path hook))
      else
        (Level.error, LogMsg.baitMissing (bait_path hook))) ::
      (match (env.prim (runArgs inp hook)).handle with
       | none =>
          [(Level.error, LogMsg.openFailed),
           (Level.error, LogMsg.realDlerror
              (((env.prim (runArgs inp hook)).errWrite).getD fallbackMsg))]
       | some hdl => [(Level.info, LogMsg.successLoaded hdl)]) := by
  rw [run_some env inp stale hook hh] at hr
  injection hr with h
  subst h
  cases hacc : env.accessOk (bait_path hook) <;>
    cases hph : (env.prim (runArgs inp hook)).handle <;>
      simp only [runResult, hacc, hph, primSlotEffect_none] <;> rfl

/-- Witness for `diagnostic_record_contents`: bait absent, primitive
failing with a retrievable linker error. -/
theorem diagnostic_record_contents_w :
    logsOf
      ((nativeHookDriver stubEnvFailErr inpA none).getD ⟨false, []⟩).trace =
      (Level.info, LogMsg.startingInjection) ::
      (if stubEnvFailErr.accessOk (bait_path "/data/app/lib") then
        (Level.info, LogMsg.baitFound (bait_path "/data/app/lib"))
      else
        (Level.error, LogMsg.baitMissing (bait_path "/data/app/lib"))) ::
      (match (stubEnvFailErr.prim (runArgs inpA "/data/app/lib")).handle with
       | none =>
          [(Level.error, LogMsg.openFailed),
           (Level.error, LogMsg.realDlerror
              (((stubEnvFailErr.prim (runArgs inpA "/data/app/lib")).errWrite).getD
                fallbackMsg))]
       | some hdl => [(Level.info, LogMsg.successLoaded hdl)]) :=
  diagnostic_record_contents stubEnvFailErr inpA none "/data/app/lib"
    ((nativeHookDriver stubEnvFailErr inpA none).getD ⟨false, []⟩)
    rfl rfl

/-- C4: the code hands the `hook_lib_dir` conversion result to the
`std::string` constructor without a null check, so at an invocation
whose `hook_lib_dir` JNI conversion yields null the run dereferences a
null pointer and never reaches a return: no boolean or diagnostic record
is produced and the fault escapes the boundary, contradicting the
claim.  The embedding evaluates to `none` (no result) at that input. -/
theorem null_hook_conversion_faults :
    nativeHookDriver stubEnvOk
      { tmp := some "/data/tmp", hook := none,
        driver := some "/data/drivers/turnip", name := some "libturnip.so" }
      none = none :=
  rfl
